import Mathlib

/-!
# Verification of the readers-digest summary-cache and prompt-registry layer

Shallow embedding of the repository's hashing library (`lib/hash.ts`:
`hashPrompt`, `hashSummaryCache`), admin-email check (`lib/auth.ts`:
`isAdminEmail`), the prompt route handlers (`GET`/`POST`/`DELETE` of
`api/prompts/[key]`), the ingest-refresh cron gate, and the client-side
prompt resolution (`SettingsClient.loadPrompt`), together with
spec-modelled definitions of the Job Registry `tryStart` and Cache Store
`put` operations whose implementations are not part of the sources.

Machine words are `Nat` with explicit reduction modulo `2 ^ 32`; the
SHA-256 digest used by Node's `crypto.createHash('sha256')` is embedded
executably (FIPS 180-4) and validated against standard test vectors.
-/

set_option maxRecDepth 4000

namespace RD

/-! ## SHA-256 over byte lists (FIPS 180-4), words as `Nat` mod `2 ^ 32` -/

/-- Truncate to a 32-bit word. -/
def w32 (n : Nat) : Nat := n % 4294967296

/-- Right rotation of a 32-bit word. -/
def rotr32 (x n : Nat) : Nat := w32 ((x >>> n) ||| (x <<< (32 - n)))

/-- Bitwise complement of a 32-bit word. -/
def not32 (x : Nat) : Nat := x ^^^ 4294967295

/-- `Ch(x,y,z)`. -/
def ch32 (x y z : Nat) : Nat := (x &&& y) ^^^ (not32 x &&& z)

/-- `Maj(x,y,z)`. -/
def maj32 (x y z : Nat) : Nat := (x &&& y) ^^^ (x &&& z) ^^^ (y &&& z)

/-- `Σ₀`. -/
def bsig0 (x : Nat) : Nat := rotr32 x 2 ^^^ rotr32 x 13 ^^^ rotr32 x 22

/-- `Σ₁`. -/
def bsig1 (x : Nat) : Nat := rotr32 x 6 ^^^ rotr32 x 11 ^^^ rotr32 x 25

/-- `σ₀`. -/
def ssig0 (x : Nat) : Nat := rotr32 x 7 ^^^ rotr32 x 18 ^^^ (x >>> 3)

/-- `σ₁`. -/
def ssig1 (x : Nat) : Nat := rotr32 x 17 ^^^ rotr32 x 19 ^^^ (x >>> 10)

/-- The 64 SHA-256 round constants (FIPS 180-4 §4.2.2, in decimal). -/
def shaK : List Nat :=
  [1116352408, 1899447441, 3049323471, 3921009573, 961987163,
   1508970993, 2453635748, 2870763221, 3624381080, 310598401,
   607225278, 1426881987, 1925078388, 2162078206, 2614888103,
   3248222580, 3835390401, 4022224774, 264347078, 604807628,
   770255983, 1249150122, 1555081692, 1996064986, 2554220882,
   2821834349, 2952996808, 3210313671, 3336571891, 3584528711,
   113926993, 338241895, 666307205, 773529912, 1294757372,
   1396182291, 1695183700, 1986661051, 2177026350, 2456956037,
   2730485921, 2820302411, 3259730800, 3345764771, 3516065817,
   3600352804, 4094571909, 275423344, 430227734, 506948616,
   659060556, 883997877, 958139571, 1322822218, 1537002063,
   1747873779, 1955562222, 2024104815, 2227730452, 2361852424,
   2428436474, 2756734187, 3204031479, 3329325298]

/-- The eight-word SHA-256 working state. -/
structure Sha256State where
  a : Nat
  b : Nat
  c : Nat
  d : Nat
  e : Nat
  f : Nat
  g : Nat
  hh : Nat
  deriving DecidableEq

/-- Initial hash value `H⁽⁰⁾` (FIPS 180-4 §5.3.3, in decimal). -/
def shaInit : Sha256State :=
  ⟨1779033703, 3144134277, 1013904242, 2773480762,
   1359893119, 2600822924, 528734635, 1541459225⟩

/-- Big-endian 8-byte encoding of a length value. -/
def be64 (n : Nat) : List Nat :=
  [(n >>> 56) % 256, (n >>> 48) % 256, (n >>> 40) % 256, (n >>> 32) % 256,
   (n >>> 24) % 256, (n >>> 16) % 256, (n >>> 8) % 256, n % 256]

/-- SHA-256 padding: `0x80`, zeros to 56 mod 64, then the 64-bit bit length. -/
def shaPad (msg : List Nat) : List Nat :=
  msg ++ [0x80] ++ List.replicate ((56 + 64 - (msg.length + 1) % 64) % 64) 0
      ++ be64 (msg.length * 8)

/-- Group a byte list into big-endian 32-bit words. -/
def toWords : List Nat → List Nat
  | b0 :: b1 :: b2 :: b3 :: rest =>
      (b0 * 16777216 + b1 * 65536 + b2 * 256 + b3) :: toWords rest
  | _ => []

/-- Split a word list into blocks of 16 words; the first argument is fuel
bounding the number of blocks. -/
def blocks16 : Nat → List Nat → List (List Nat)
  | 0, _ => []
  | _ + 1, [] => []
  | fuel + 1, ws => ws.take 16 :: blocks16 fuel (ws.drop 16)

/-- Next word of the message schedule, computed from the last 16 words. -/
def nextW (ws : List Nat) : Nat :=
  let n := ws.length
  w32 (ssig1 (ws.getD (n - 2) 0) + ws.getD (n - 7) 0 + ssig0 (ws.getD (n - 15) 0)
      + ws.getD (n - 16) 0)

/-- Extend a 16-word block by `k` schedule words. -/
def extendW : Nat → List Nat → List Nat
  | 0, ws => ws
  | k + 1, ws => extendW k (ws ++ [nextW ws])

/-- One compression round, consuming a (constant, schedule-word) pair. -/
def shaRound (st : Sha256State) (kw : Nat × Nat) : Sha256State :=
  let t1 := w32 (st.hh + bsig1 st.e + ch32 st.e st.f st.g + kw.1 + kw.2)
  let t2 := w32 (bsig0 st.a + maj32 st.a st.b st.c)
  ⟨w32 (t1 + t2), st.a, st.b, st.c, w32 (st.d + t1), st.e, st.f, st.g⟩

/-- Process one 16-word block: 64 rounds, then add into the chaining state. -/
def compressBlock (st : Sha256State) (block : List Nat) : Sha256State :=
  let ws := extendW 48 block
  let r := (shaK.zip ws).foldl shaRound st
  ⟨w32 (st.a + r.a), w32 (st.b + r.b), w32 (st.c + r.c), w32 (st.d + r.d),
   w32 (st.e + r.e), w32 (st.f + r.f), w32 (st.g + r.g), w32 (st.hh + r.hh)⟩

/-- SHA-256 of a byte list, as the final eight-word state. -/
def sha256Digest (msg : List Nat) : Sha256State :=
  let padded := shaPad msg
  let ws := toWords padded
  (blocks16 ws.length ws).foldl compressBlock shaInit

/-- Lower-case hex digit. -/
def hexDigit (n : Nat) : Char :=
  if n < 10 then Char.ofNat (48 + n) else Char.ofNat (87 + n)

/-- Eight-hex-digit big-endian rendering of a 32-bit word. -/
def wordHex (w : Nat) : List Char :=
  [hexDigit (w / 268435456 % 16), hexDigit (w / 16777216 % 16),
   hexDigit (w / 1048576 % 16), hexDigit (w / 65536 % 16),
   hexDigit (w / 4096 % 16), hexDigit (w / 256 % 16),
   hexDigit (w / 16 % 16), hexDigit (w % 16)]

/-- Hex string of a digest state. -/
def digestHex (st : Sha256State) : String :=
  String.mk (wordHex st.a ++ wordHex st.b ++ wordHex st.c ++ wordHex st.d
      ++ wordHex st.e ++ wordHex st.f ++ wordHex st.g ++ wordHex st.hh)

/-- `crypto.createHash('sha256').update(bytes).digest('hex')`. -/
def sha256Hex (msg : List Nat) : String := digestHex (sha256Digest msg)

/-- UTF-8 encoding of one code point. -/
def utf8Char (c : Char) : List Nat :=
  let n := c.toNat
  if n < 128 then [n]
  else if n < 2048 then [192 + n / 64, 128 + n % 64]
  else if n < 65536 then [224 + n / 4096, 128 + n / 64 % 64, 128 + n % 64]
  else [240 + n / 262144, 128 + n / 4096 % 64, 128 + n / 64 % 64, 128 + n % 64]

/-- UTF-8 encoding of a string, as Node's `hash.update(string)` performs. -/
def utf8Bytes (s : String) : List Nat := (s.data.map utf8Char).flatten

/-! ## JSON serialization as `JSON.stringify` performs on the hashed payloads -/

/-- `JSON.stringify` escaping of one character inside a string literal. -/
def jsonEscapeChar (c : Char) : List Char :=
  if c = '"' then ['\\', '"']
  else if c = '\\' then ['\\', '\\']
  else if c.toNat = 8 then ['\\', 'b']
  else if c.toNat = 9 then ['\\', 't']
  else if c.toNat = 10 then ['\\', 'n']
  else if c.toNat = 12 then ['\\', 'f']
  else if c.toNat = 13 then ['\\', 'r']
  else if c.toNat < 32 then ['\\', 'u', '0', '0', hexDigit (c.toNat / 16), hexDigit (c.toNat % 16)]
  else [c]

/-- Body of a JSON string literal. -/
def jsonEscape (s : String) : String := String.mk ((s.data.map jsonEscapeChar).flatten)

/-- A JSON string literal, quotes included. -/
def jsonQuote (s : String) : String := "\"" ++ jsonEscape s ++ "\""

/-- JSON rendering of a string-or-null field. -/
def jsonStrOrNull : Option String → String
  | none => "null"
  | some s => jsonQuote s

/-- JSON rendering of an array of strings. -/
def jsonStringArray (tags : List String) : String :=
  "[" ++ String.intercalate "," (tags.map jsonQuote) ++ "]"

/-! ## `lib/hash.ts` -/

/-- The serialized object `JSON.stringify({ system, user, model })`
hashed by `hashPrompt`. -/
def promptPayload (system user model : String) : String :=
  "\x7b\"system\":" ++ jsonQuote system ++ ",\"user\":" ++ jsonQuote user
    ++ ",\"model\":" ++ jsonQuote model ++ "\x7d"

/-- `hashPrompt(system, user, model)` from `lib/hash.ts`: SHA-256 hex of the
serialized `(system, user, model)` object. The prompt version is not an input. -/
def hashPrompt (system user model : String) : String :=
  sha256Hex (utf8Bytes (promptPayload system user model))

/-- Input record of `hashSummaryCache`; `none` stands for a JS field that is
absent, `undefined` or `null`. -/
structure SummaryCacheInput where
  videoId : Option String
  transcriptHash : Option String
  promptHash : String
  model : String
  tags : Option (List String)
  deriving DecidableEq

/-- JS `x || null` on an optional string field: the empty string is falsy and
collapses to `null`. -/
def orNull : Option String → Option String
  | none => none
  | some s => if s = "" then none else some s

/-- The serialized object hashed by `hashSummaryCache`, fields in source
order `videoId, transcriptHash, promptHash, model, tags`; tags are serialized
in the order given, without sorting. -/
def summaryPayload (i : SummaryCacheInput) : String :=
  "\x7b\"videoId\":" ++ jsonStrOrNull (orNull i.videoId)
    ++ ",\"transcriptHash\":" ++ jsonStrOrNull (orNull i.transcriptHash)
    ++ ",\"promptHash\":" ++ jsonQuote i.promptHash
    ++ ",\"model\":" ++ jsonQuote i.model
    ++ ",\"tags\":" ++ jsonStringArray (i.tags.getD [])
    ++ "\x7d"

/-- `hashSummaryCache(input)` from `lib/hash.ts`: SHA-256 hex of the
serialized input record. Total: a missing `transcriptHash` is serialized as
`null`, not rejected. -/
def hashSummaryCache (i : SummaryCacheInput) : String :=
  sha256Hex (utf8Bytes (summaryPayload i))

/-! ## `lib/auth.ts` -/

/-- JS whitespace as removed by `String.prototype.trim`. -/
def isJsWhitespace (c : Char) : Bool :=
  [9, 10, 11, 12, 13, 32, 160, 5760, 8192, 8193, 8194, 8195, 8196, 8197, 8198,
   8199, 8200, 8201, 8202, 8232, 8233, 8239, 8287, 12288, 65279].contains c.toNat

/-- `s.trim()`. -/
def jsTrim (s : String) : String :=
  String.mk (((s.data.dropWhile isJsWhitespace).reverse.dropWhile isJsWhitespace).reverse)

/-- `s.toLowerCase()` (ASCII model). -/
def lowerStr (s : String) : String := String.mk (s.data.map Char.toLower)

/-- `s.split(',')`: split at every comma, keeping empty pieces. -/
def splitCommaAux : List Char → List Char → List String
  | [], acc => [String.mk acc.reverse]
  | c :: cs, acc =>
      if c = ',' then String.mk acc.reverse :: splitCommaAux cs []
      else splitCommaAux cs (c :: acc)

/-- `s.split(',')`. -/
def splitComma (s : String) : List String := splitCommaAux s.data []

/-- The parsed admin list: `(ADMIN_EMAILS || '').split(',').map(v =>
v.trim().toLowerCase()).filter(Boolean)`. -/
def adminList (adminEmailsEnv : Option String) : List String :=
  ((splitComma (adminEmailsEnv.getD "")).map (fun v => lowerStr (jsTrim v))).filter
    (fun v => v ≠ "")

/-- `isAdminEmail(email)` from `lib/auth.ts`, with the `ADMIN_EMAILS`
environment variable made an explicit argument. `none` models a missing
email; the empty string is falsy and also yields `false`. -/
def isAdminEmail (email : Option String) (adminEmailsEnv : Option String) : Bool :=
  match email with
  | none => false
  | some e => if e = "" then false else (adminList adminEmailsEnv).contains (lowerStr e)

/-! ## Ingest-refresh cron gate (`api/ingest/refresh` POST, lines 6-10) -/

/-- Outcome of the header check at the top of the ingest POST handler. -/
inductive CronOutcome where
  | forbidden
  | proceed
  deriving DecidableEq

/-- The gate `if (process.env.CRON_SECRET && header !== process.env.CRON_SECRET)
return 403`: an unset (`none`) or empty secret is falsy and lets every request
through; otherwise the `x-cron-secret` header (`none` = absent) must equal the
secret. -/
def cronGate (secretEnv : Option String) (headerVal : Option String) : CronOutcome :=
  match secretEnv with
  | none => .proceed
  | some s => if s = "" then .proceed else if headerVal = some s then .proceed else .forbidden

/-! ## The `Prompt` table and the `api/prompts/[key]` route handlers -/

/-- A `(system, user)` prompt text pair. -/
structure PromptText where
  system : String
  user : String
  deriving DecidableEq

/-- The `DEFAULT_PROMPTS` record of the route module: built-in defaults for
the two known keys. -/
def DEFAULT_PROMPTS (key : String) : Option PromptText :=
  if key = "youtube_video" then
    some ⟨"You are an assistant that writes crisp, well-structured executive summaries of YouTube transcripts.",
      "Summarize the following YouTube video transcript. Include **Key Points:** with 3-5 bullets.\n\nVideo Title: \x7btitle\x7d\nChannel: \x7bchannel\x7d\nPublished At: \x7bpublished_at\x7d\nTags: \x7btags\x7d\nTranscript:\n\"\"\"\n\x7btranscript\x7d\n\"\"\""⟩
  else if key = "blog_post" then
    some ⟨"You craft precise executive summaries of long-form blog posts and newsletters for busy readers.",
      "Summarize the following article and add **Key Points:**.\n\nArticle Title: \x7btitle\x7d\nAuthor: \x7bauthor\x7d\nPublished At: \x7bpublished_at\x7d\nURL: \x7burl\x7d\nTags: \x7btags\x7d\nContent:\n\"\"\"\n\x7bcontent\x7d\n\"\"\""⟩
  else none

/-- A row of the `Prompt` table (unique on `(key, scope, userId)`). -/
structure PromptRow where
  key : String
  scope : String
  userId : Option String
  system : String
  user : String
  promptVersion : Nat
  deriving DecidableEq

/-- The `Prompt` table as a map on its unique key `(key, scope, userId)`. -/
abbrev PromptStore := String → String → Option String → Option PromptRow

/-- The empty table. -/
def emptyPromptStore : PromptStore := fun _ _ _ => none

/-- `prisma.prompt.findUnique` on the `(key, scope, userId)` unique index. -/
def findPrompt (store : PromptStore) (key scope : String) (uid : Option String) :
    Option PromptRow :=
  store key scope uid

/-- `prisma.prompt.upsert`: update bumps `promptVersion` by one and replaces
the texts; create starts at `promptVersion: 1`. Returns the resulting row and
the new table. -/
def upsertPrompt (store : PromptStore) (key scope : String) (uid : Option String)
    (sys usr : String) : PromptRow × PromptStore :=
  let row := match store key scope uid with
    | some r => { r with system := sys, user := usr, promptVersion := r.promptVersion + 1 }
    | none => ⟨key, scope, uid, sys, usr, 1⟩
  (row, fun k s u => if k = key ∧ s = scope ∧ u = uid then some row else store k s u)

/-- `prisma.prompt.deleteMany({ key, scope: 'user', userId })` as performed by
the DELETE handler. -/
def deleteUserPrompts (store : PromptStore) (key : String) (uid : String) : PromptStore :=
  fun k s u => if k = key ∧ s = "user" ∧ u = some uid then none else store k s u

/-- The authenticated Supabase user visible to a handler. -/
structure SessionUser where
  id : String
  email : Option String
  deriving DecidableEq

/-- Response of the prompt POST handler. -/
inductive PostResponse where
  /-- 401 `unauthorized`. -/
  | unauthorized
  /-- 404 `unknown prompt key`. -/
  | unknownKey
  /-- 400 `system and user required`. -/
  | missingFields
  /-- 403 `forbidden`. -/
  | forbidden
  /-- 200 with the upserted row. -/
  | saved (row : PromptRow)
  deriving DecidableEq

/-- The POST handler of `api/prompts/[key]`: auth check, key check, trimmed
non-empty text check, scope defaulting (`payload.scope === 'user'` selects the
user scope, anything else the global scope), admin check for the global scope,
then the versioning upsert. Environment and session are explicit arguments;
the result pairs the HTTP outcome with the table after the call. -/
def promptPost (adminEnv : Option String) (store : PromptStore)
    (authUser : Option SessionUser) (key : String)
    (payloadSystem payloadUser payloadScope : Option String) :
    PostResponse × PromptStore :=
  match authUser with
  | none => (.unauthorized, store)
  | some u =>
    match DEFAULT_PROMPTS key with
    | none => (.unknownKey, store)
    | some _ =>
      let sys := jsTrim (payloadSystem.getD "")
      let usr := jsTrim (payloadUser.getD "")
      if sys = "" ∨ usr = "" then (.missingFields, store)
      else
        let scope := if payloadScope = some "user" then "user" else "global"
        if scope = "global" ∧ isAdminEmail u.email adminEnv = false then (.forbidden, store)
        else
          let res := upsertPrompt store key scope (if scope = "user" then some u.id else none)
            sys usr
          (.saved res.1, res.2)

/-- Response of the prompt DELETE handler. -/
inductive DeleteResponse where
  | unauthorized
  | ok
  deriving DecidableEq

/-- The DELETE handler of `api/prompts/[key]`: removes the caller's user-scope
override rows for the key (no key-existence check, no version bookkeeping). -/
def promptDelete (store : PromptStore) (authUser : Option SessionUser) (key : String) :
    DeleteResponse × PromptStore :=
  match authUser with
  | none => (.unauthorized, store)
  | some u => (.ok, deleteUserPrompts store key u.id)

/-- The JSON payload of a successful prompt GET. -/
structure PromptPayload where
  dflt : PromptText
  global : Option PromptRow
  user : Option PromptRow
  deriving DecidableEq

/-- Response of the prompt GET handler. -/
inductive GetResponse where
  | unauthorized
  | unknownKey
  | payload (p : PromptPayload)
  deriving DecidableEq

/-- The GET handler of `api/prompts/[key]`: returns the built-in default plus
the global-scope row (`userId: null`) and the caller's user-scope row. -/
def promptGet (store : PromptStore) (authUser : Option SessionUser) (key : String) :
    GetResponse :=
  match authUser with
  | none => .unauthorized
  | some u =>
    match DEFAULT_PROMPTS key with
    | none => .unknownKey
    | some d => .payload ⟨d, findPrompt store key "global" none,
        findPrompt store key "user" (some u.id)⟩

/-- The text pair carried by a row. -/
def rowText (r : PromptRow) : PromptText := ⟨r.system, r.user⟩

/-- The client-side resolution in `SettingsClient.loadPrompt`: the shown
prompt is `userPrompt || (payload.global || payload.default)`. -/
def loadPromptShown (p : PromptPayload) : PromptText :=
  match p.user with
  | some r => rowText r
  | none =>
    match p.global with
    | some g => rowText g
    | none => p.dflt

/-- The fingerprint computed for a resolved prompt row: the spec's data flow
feeds the prompt text hash — `hashPrompt` of the row's texts and the model —
into `hashSummaryCache`, which is the only way a caller can obtain the
`promptHash` input. The row's `promptVersion` has no path into the digest. -/
def fingerprintOfPrompt (p : PromptRow) (videoId transcriptHash : Option String)
    (model : String) (tags : Option (List String)) : String :=
  hashSummaryCache ⟨videoId, transcriptHash, hashPrompt p.system p.user model, model, tags⟩

/-- The client's end-to-end prompt resolution: fetch the GET payload and apply
`loadPrompt`'s selection; a non-ok response resolves to nothing. -/
def resolveClient (store : PromptStore) (authUser : Option SessionUser) (key : String) :
    Option PromptText :=
  match promptGet store authUser key with
  | .payload p => some (loadPromptShown p)
  | _ => none

/-! ## Job Registry and Cache Store (spec-modelled) -/

/-- State of an asynchronous summarization job. -/
inductive JobState where
  | queued
  | running
  | complete
  | error
  deriving DecidableEq

/-- Whether a job state is terminal. -/
def JobState.isTerminal : JobState → Bool
  | .complete => true
  | .error => true
  | _ => false

/-- A job tracked by the registry: target fingerprint and current state. -/
structure Job where
  fingerprint : String
  state : JobState
  deriving DecidableEq

/-- The registry keyed by content identity. -/
abbrev Registry := String → Option Job

/-- No non-terminal job exists for the content identity. -/
def noActiveJob (reg : Registry) (cid : String) : Prop :=
  ∀ j, reg cid = some j → j.state.isTerminal = true

/-- Result of `tryStart`. -/
inductive TryStartResult where
  | started
  | alreadyRunning (fingerprint : String)
  deriving DecidableEq

/-- Modelled from the spec: the Job Registry and its `tryStart` operation are
not part of the sources (only the schema's single-flight uniqueness constraint
is). Per the spec's contract, `tryStart(contentIdentity, fingerprint)` is an
atomic check-and-set: if a non-terminal job exists for the content identity it
returns `AlreadyRunning` with that job's fingerprint and changes nothing, even
when the requested fingerprint differs; otherwise it claims the slot with a
fresh `Queued` job and returns `Started`. -/
def tryStart (reg : Registry) (cid fp : String) : TryStartResult × Registry :=
  match reg cid with
  | some j =>
    if j.state.isTerminal = false then (.alreadyRunning j.fingerprint, reg)
    else (.started, fun c => if c = cid then some ⟨fp, JobState.queued⟩ else reg c)
  | none => (.started, fun c => if c = cid then some ⟨fp, JobState.queued⟩ else reg c)

/-- A sequence of `tryStart` calls for one content identity, executed in
arrival order; since the spec makes each call atomic, any concurrent execution
of N calls is equivalent to some such sequence. -/
def runTryStarts (reg : Registry) (cid : String) :
    List String → List TryStartResult × Registry
  | [] => ([], reg)
  | fp :: rest =>
    let first := tryStart reg cid fp
    let later := runTryStarts first.2 cid rest
    (first.1 :: later.1, later.2)

/-- A cached artifact as persisted in the `Summary` table. -/
structure Artifact where
  summaryText : String
  model : String
  promptHash : String
  deriving DecidableEq

/-- The cache store keyed by fingerprint (`Summary.cacheKey`, unique). -/
abbrev CacheStore := String → Option Artifact

/-- Outcome of a cache `put`. -/
inductive PutOutcome where
  | ok
  | integrityViolation
  deriving DecidableEq

/-- Modelled from the spec: the Cache Store `put` implementation is not part
of the sources (only the `Summary_cacheKey_key` unique index is). Per the
spec's contract, `put(fingerprint, artifact)` inserts under an absent
fingerprint, is a no-op when an identical artifact is already present, and
rejects a divergent artifact under an existing fingerprint with
`IntegrityViolation`, never overwriting. -/
def putArtifact (store : CacheStore) (fp : String) (a : Artifact) :
    PutOutcome × CacheStore :=
  match store fp with
  | none => (.ok, fun k => if k = fp then some a else store k)
  | some b => if b = a then (.ok, store) else (.integrityViolation, store)

/-! ## Supporting lemmas -/

/-- A digest rendering is always 64 hex characters. -/
theorem digestHex_length (st : Sha256State) : (digestHex st).length = 64 := rfl

/-- A character that `JSON.stringify` passes through unescaped: printable
ASCII, not a quote, not a backslash. -/
def plainChar (c : Char) : Bool :=
  decide (31 < c.toNat) && decide (c.toNat < 127) && decide (c ≠ '"') && decide (c ≠ '\\')

/-- A string all of whose characters are passed through unescaped. -/
def plainStr (s : String) : Bool := s.data.all plainChar

theorem jsonEscapeChar_plain {c : Char} (h : plainChar c = true) : jsonEscapeChar c = [c] := by
  simp only [plainChar, Bool.and_eq_true, decide_eq_true_eq] at h
  obtain ⟨⟨⟨h1, h2⟩, h3⟩, h4⟩ := h
  simp only [jsonEscapeChar, if_neg h3, if_neg h4]
  rw [if_neg (by omega), if_neg (by omega), if_neg (by omega), if_neg (by omega),
    if_neg (by omega), if_neg (by omega)]

theorem flatten_escape_plain : ∀ l : List Char, l.all plainChar = true →
    (l.map jsonEscapeChar).flatten = l
  | [], _ => rfl
  | c :: cs, h => by
      simp only [List.all_cons, Bool.and_eq_true] at h
      simp [jsonEscapeChar_plain h.1, flatten_escape_plain cs h.2]

theorem jsonEscape_plain {s : String} (h : plainStr s = true) : jsonEscape s = s := by
  apply String.ext
  simpa [jsonEscape] using flatten_escape_plain s.data h

theorem jsonQuote_plain {s : String} (h : plainStr s = true) :
    jsonQuote s = "\"" ++ s ++ "\"" := by
  simp [jsonQuote, jsonEscape_plain h]

/-- Two different plain strings stay different after quoting between a common
prefix and a common suffix. -/
theorem quoted_mid_ne {pre suf : String} {x y : String} (hx : plainStr x = true)
    (hy : plainStr y = true) (hne : x ≠ y) :
    pre ++ jsonQuote x ++ suf ≠ pre ++ jsonQuote y ++ suf := by
  intro h
  apply hne
  apply String.ext
  have hd := congrArg String.data h
  simp only [jsonQuote_plain hx, jsonQuote_plain hy, String.data_append,
    List.append_assoc] at hd
  replace hd := List.append_cancel_left hd
  replace hd := List.append_cancel_left hd
  exact List.append_cancel_right hd

/-- The hashed payload, re-associated to expose the `model` field between a
fixed prefix and a fixed suffix. -/
theorem summaryPayload_model_shape (vid th : Option String) (ph m : String)
    (tg : Option (List String)) :
    summaryPayload ⟨vid, th, ph, m, tg⟩ =
      ("\x7b\"videoId\":" ++ jsonStrOrNull (orNull vid) ++ ",\"transcriptHash\":"
          ++ jsonStrOrNull (orNull th) ++ ",\"promptHash\":" ++ jsonQuote ph ++ ",\"model\":")
        ++ jsonQuote m
        ++ (",\"tags\":" ++ jsonStringArray (tg.getD []) ++ "\x7d") := by
  simp [summaryPayload, String.append_assoc]

/-- The hashed payload, re-associated to expose a non-empty `transcriptHash`
between a fixed prefix and a fixed suffix. -/
theorem summaryPayload_th_shape (vid : Option String) (t ph m : String)
    (tg : Option (List String)) (ht : t ≠ "") :
    summaryPayload ⟨vid, some t, ph, m, tg⟩ =
      ("\x7b\"videoId\":" ++ jsonStrOrNull (orNull vid) ++ ",\"transcriptHash\":")
        ++ jsonQuote t
        ++ (",\"promptHash\":" ++ jsonQuote ph ++ ",\"model\":" ++ jsonQuote m
          ++ ",\"tags\":" ++ jsonStringArray (tg.getD []) ++ "\x7d") := by
  simp [summaryPayload, orNull, ht, jsonStrOrNull, String.append_assoc]

/-- Under an active (non-terminal) job, every `tryStart` call in a batch
reports `AlreadyRunning` with that job's fingerprint and leaves the registry
unchanged. -/
theorem runTryStarts_active (cid : String) (j : Job) (hterm : j.state.isTerminal = false) :
    ∀ (fps : List String) (reg : Registry), reg cid = some j →
      (runTryStarts reg cid fps).1 =
        fps.map (fun _ => TryStartResult.alreadyRunning j.fingerprint)
  | [], _, _ => rfl
  | fp :: rest, reg, hreg => by
      have hstep : tryStart reg cid fp = (.alreadyRunning j.fingerprint, reg) := by
        simp [tryStart, hreg, hterm]
      simp only [runTryStarts, hstep, List.map_cons]
      rw [runTryStarts_active cid j hterm rest reg hreg]

/-! ## Claims -/

/-- Claim C1, counterexample: the tag lists `["a", "b"]` and `["b", "a"]` are
permutations of each other (an equal tag set), yet `hashSummaryCache` returns
different fingerprints for them with every other input held fixed, because the
code serializes tags in the given order without sorting. -/
theorem C1_counterexample :
    List.Perm ["a", "b"] ["b", "a"] ∧
    hashSummaryCache ⟨some "v1", some "h1", "p1", "m1", some ["a", "b"]⟩ ≠
      hashSummaryCache ⟨some "v1", some "h1", "p1", "m1", some ["b", "a"]⟩ :=
  ⟨by decide, by decide⟩

/-- Claim C1, amended: `hashSummaryCache` is a pure function of the normalized
inputs — empty-string `videoId`/`transcriptHash` coerced to null, tags compared
as ordered lists — so repeated calls and any two inputs that agree after this
normalization yield the same fingerprint; tag order, however, is significant. -/
theorem C1_theorem (i j : SummaryCacheInput)
    (hv : orNull i.videoId = orNull j.videoId)
    (ht : orNull i.transcriptHash = orNull j.transcriptHash)
    (hp : i.promptHash = j.promptHash) (hm : i.model = j.model)
    (htags : i.tags.getD [] = j.tags.getD []) :
    hashSummaryCache i = hashSummaryCache j := by
  unfold hashSummaryCache summaryPayload
  rw [hv, ht, hp, hm, htags]

/-- Claim C1, witness: two concrete normalization-equal inputs share a
fingerprint. -/
theorem C1_witness :
    hashSummaryCache ⟨some "", some "h1", "p1", "m1", none⟩ =
      hashSummaryCache ⟨none, some "h1", "p1", "m1", some []⟩ :=
  C1_theorem _ _ (by decide) rfl rfl rfl rfl

/-- Claim C2, counterexample: two prompt rows with identical system/user text
and model but different `promptVersion` values (1 and 2) produce the same
fingerprint — the version has no path into `hashPrompt` or
`hashSummaryCache`, so changing the prompt version alone cannot change the
fingerprint. -/
theorem C2_counterexample :
    (PromptRow.mk "youtube_video" "global" none "sysA" "usrA" 1).promptVersion
      ≠ (PromptRow.mk "youtube_video" "global" none "sysA" "usrA" 2).promptVersion
    ∧ fingerprintOfPrompt (PromptRow.mk "youtube_video" "global" none "sysA" "usrA" 1)
        (some "v1") (some "h1") "m1" (some ["t"])
      = fingerprintOfPrompt (PromptRow.mk "youtube_video" "global" none "sysA" "usrA" 2)
        (some "v1") (some "h1") "m1" (some ["t"]) :=
  ⟨by decide, rfl⟩

/-- Claim C2, amended: the fingerprint is insensitive to `promptVersion`
(first conjunct, for all inputs); changing the model or the (non-empty,
escape-free) transcript hash alone changes the serialized payload fed to
SHA-256 (second and third conjuncts), and at concrete inputs the digest itself
changes (last two conjuncts). -/
theorem C2_theorem :
    (∀ k sc uid s u m v1 v2 vid th tg,
      fingerprintOfPrompt ⟨k, sc, uid, s, u, v1⟩ vid th m tg
        = fingerprintOfPrompt ⟨k, sc, uid, s, u, v2⟩ vid th m tg)
    ∧ (∀ vid th ph tg m1 m2, plainStr m1 = true → plainStr m2 = true → m1 ≠ m2 →
        summaryPayload ⟨vid, th, ph, m1, tg⟩ ≠ summaryPayload ⟨vid, th, ph, m2, tg⟩)
    ∧ (∀ vid ph m tg t1 t2, plainStr t1 = true → plainStr t2 = true →
        t1 ≠ "" → t2 ≠ "" → t1 ≠ t2 →
        summaryPayload ⟨vid, some t1, ph, m, tg⟩ ≠ summaryPayload ⟨vid, some t2, ph, m, tg⟩)
    ∧ hashSummaryCache ⟨some "v1", some "h1", "p1", "m1", some ["t"]⟩
        ≠ hashSummaryCache ⟨some "v1", some "h2", "p1", "m1", some ["t"]⟩
    ∧ hashSummaryCache ⟨some "v1", some "h1", "p1", "m1", some ["t"]⟩
        ≠ hashSummaryCache ⟨some "v1", some "h1", "p1", "m2", some ["t"]⟩ := by
  refine ⟨fun _ _ _ _ _ _ _ _ _ _ _ => rfl, ?_, ?_, by decide, by decide⟩
  · intro vid th ph tg m1 m2 h1 h2 hne
    rw [summaryPayload_model_shape, summaryPayload_model_shape]
    exact quoted_mid_ne h1 h2 hne
  · intro vid ph m tg t1 t2 h1 h2 hne1 hne2 hne
    rw [summaryPayload_th_shape _ _ _ _ _ hne1, summaryPayload_th_shape _ _ _ _ _ hne2]
    exact quoted_mid_ne h1 h2 hne

/-- Claim C2, witness: concrete model-only and transcript-hash-only changes
alter the hashed payload. -/
theorem C2_witness :
    summaryPayload ⟨some "v1", some "h1", "p1", "mA", some ["t"]⟩
      ≠ summaryPayload ⟨some "v1", some "h1", "p1", "mB", some ["t"]⟩
    ∧ summaryPayload ⟨some "v1", some "hA", "p1", "m1", some ["t"]⟩
      ≠ summaryPayload ⟨some "v1", some "hB", "p1", "m1", some ["t"]⟩ :=
  ⟨C2_theorem.2.1 (some "v1") (some "h1") "p1" (some ["t"]) "mA" "mB"
      (by decide) (by decide) (by decide),
   C2_theorem.2.2.1 (some "v1") "p1" "m1" (some ["t"]) "hA" "hB"
      (by decide) (by decide) (by decide) (by decide) (by decide)⟩

/-- Claim C3, counterexample: a user-scope save creates version 1; after the
DELETE handler removes the override, the next save re-creates the row with
version 1 again — the version number is reused after deletion, for different
text. -/
theorem C3_counterexample :
    (promptPost none emptyPromptStore (some ⟨"u1", some "a@b.c"⟩) "youtube_video"
        (some "sysA") (some "usrA") (some "user")).1
      = .saved ⟨"youtube_video", "user", some "u1", "sysA", "usrA", 1⟩
    ∧ (promptPost none
        (promptDelete
          (promptPost none emptyPromptStore (some ⟨"u1", some "a@b.c"⟩) "youtube_video"
            (some "sysA") (some "usrA") (some "user")).2
          (some ⟨"u1", some "a@b.c"⟩) "youtube_video").2
        (some ⟨"u1", some "a@b.c"⟩) "youtube_video"
        (some "sysB") (some "usrB") (some "user")).1
      = .saved ⟨"youtube_video", "user", some "u1", "sysB", "usrB", 1⟩ :=
  ⟨by decide, by decide⟩

/-- Claim C3, amended: each successful save returns `promptVersion` equal to
the stored version plus one when a row exists for the targeted
`(key, scope, userId)` slot, and 1 when none does — strictly increasing while
the row persists, but restarting at 1 after a deletion removes the row. -/
theorem C3_theorem (adminEnv : Option String) (store : PromptStore) (u : SessionUser)
    (key : String) (ps pu pscope : Option String) (row : PromptRow)
    (sc : String) (uid : Option String)
    (hsc : sc = if pscope = some "user" then "user" else "global")
    (huid : uid = if sc = "user" then some u.id else none)
    (hsave : (promptPost adminEnv store (some u) key ps pu pscope).1 = .saved row) :
    row.promptVersion =
      (match findPrompt store key sc uid with
        | some old => old.promptVersion + 1
        | none => 1) := by
  subst hsc
  subst huid
  simp only [promptPost] at hsave
  split at hsave
  · exact absurd hsave (by simp)
  · split at hsave
    · exact absurd hsave (by simp)
    · split at hsave
      case isTrue h =>
        rw [if_neg (by simp)] at hsave
        simp only at hsave
        injection hsave with hrow
        subst hrow
        simp only [h, if_pos]
        simp only [upsertPrompt, findPrompt]
        split <;> simp_all
      case isFalse h =>
        split at hsave
        · exact absurd hsave (by simp)
        · simp only at hsave
          injection hsave with hrow
          subst hrow
          simp only [if_neg h]
          simp only [upsertPrompt, findPrompt]
          split <;> simp_all

/-- Claim C3, witness: saving over an existing user-scope row holding version
5 returns version 6. -/
theorem C3_witness :
    (PromptRow.mk "youtube_video" "user" (some "u1") "sB" "uB" 6).promptVersion =
      (match findPrompt
          (fun k s u2 =>
            if k = "youtube_video" ∧ s = "user" ∧ u2 = some "u1" then
              some (PromptRow.mk "youtube_video" "user" (some "u1") "sA" "uA" 5)
            else none)
          "youtube_video" "user" (some "u1") with
        | some old => old.promptVersion + 1
        | none => 1) :=
  C3_theorem none
    (fun k s u2 =>
      if k = "youtube_video" ∧ s = "user" ∧ u2 = some "u1" then
        some (PromptRow.mk "youtube_video" "user" (some "u1") "sA" "uA" 5)
      else none)
    ⟨"u1", some "a@b.c"⟩ "youtube_video" (some "sB") (some "uB") (some "user")
    (PromptRow.mk "youtube_video" "user" (some "u1") "sB" "uB" 6)
    "user" (some "u1") (by decide) (by decide) (by decide)

/-- Claim C4, counterexample: an input with no `transcriptHash` is not
rejected and signals nothing — `hashSummaryCache` serializes the missing hash
as null and returns an ordinary fingerprint. -/
theorem C4_counterexample :
    hashSummaryCache ⟨some "v1", none, "p1", "m1", some []⟩ =
      "787ff1b3184596ea0631f61f0332331cd14c2deb84078ae66cd1dac6d5cfd04e" := by
  decide

/-- Claim C4, amended: the fingerprint calculator is total and pure — it
cannot fail on any input and has no `NotReady` signal; every input, including
one with a missing or empty `transcriptHash` (the two are identified by the
`|| null` coercion), produces a 64-hex-character fingerprint. -/
theorem C4_theorem :
    (∀ i : SummaryCacheInput, (hashSummaryCache i).length = 64)
    ∧ (∀ vid ph m tg, hashSummaryCache ⟨vid, some "", ph, m, tg⟩
        = hashSummaryCache ⟨vid, none, ph, m, tg⟩) :=
  ⟨fun _ => rfl, fun _ _ _ _ => rfl⟩

/-- Claim C5: from a registry with no active job for a content identity, any
arrival order of N `tryStart` calls produces exactly one `Started` (the first)
and N−1 `AlreadyRunning` results all referencing the winner's fingerprint. -/
theorem C5_theorem (reg : Registry) (cid : String) (hno : noActiveJob reg cid)
    (fp0 : String) (rest : List String) :
    (runTryStarts reg cid (fp0 :: rest)).1 =
      .started :: rest.map (fun _ => TryStartResult.alreadyRunning fp0) := by
  have hstep : tryStart reg cid fp0 =
      (.started, fun c => if c = cid then some ⟨fp0, JobState.queued⟩ else reg c) := by
    cases hreg : reg cid with
    | none => simp [tryStart, hreg]
    | some j => simp [tryStart, hreg, hno j hreg]
  simp only [runTryStarts, hstep]
  rw [runTryStarts_active cid ⟨fp0, JobState.queued⟩ rfl rest _ (by simp)]

/-- Claim C5, witness: three concurrent calls on an empty registry yield one
`Started` and two `AlreadyRunning "f1"`. -/
theorem C5_witness :
    noActiveJob (fun _ => none) "c1"
    ∧ (runTryStarts (fun _ => none) "c1" ["f1", "f2", "f3"]).1 =
        [.started, .alreadyRunning "f1", .alreadyRunning "f1"] := by
  refine ⟨fun j h => Option.noConfusion h, ?_⟩
  have h := C5_theorem (fun _ => none) "c1" (fun j h => Option.noConfusion h) "f1" ["f2", "f3"]
  simpa using h

/-- Claim C6: a second `put` of the same fingerprint with an identical
artifact leaves the store exactly as after the first call, and succeeds
whenever the first call succeeded — no duplicate entry, no error. -/
theorem C6_theorem (store : CacheStore) (fp : String) (a : Artifact) :
    (putArtifact (putArtifact store fp a).2 fp a).2 = (putArtifact store fp a).2
    ∧ ((putArtifact store fp a).1 = .ok →
        (putArtifact (putArtifact store fp a).2 fp a).1 = .ok) := by
  cases hs : store fp with
  | none =>
    have h1 : putArtifact store fp a = (.ok, fun k => if k = fp then some a else store k) := by
      simp [putArtifact, hs]
    rw [h1]
    constructor
    · simp [putArtifact]
    · intro _; simp [putArtifact]
  | some b =>
    by_cases hb : b = a
    · have h1 : putArtifact store fp a = (.ok, store) := by simp [putArtifact, hs, hb]
      rw [h1]
      constructor
      · simp [putArtifact, hs, hb]
      · intro _; simp [putArtifact, hs, hb]
    · have h1 : putArtifact store fp a = (.integrityViolation, store) := by
        simp [putArtifact, hs, hb]
      rw [h1]
      constructor
      · simp [putArtifact, hs, hb]
      · intro hok; exact absurd hok (by simp)

/-- Claim C6, witness: a fresh put succeeds and an identical re-put succeeds. -/
theorem C6_witness :
    (putArtifact (fun _ => none) "f" ⟨"text", "m", "p"⟩).1 = .ok
    ∧ (putArtifact (putArtifact (fun _ => none) "f" ⟨"text", "m", "p"⟩).2 "f"
        ⟨"text", "m", "p"⟩).1 = .ok :=
  ⟨rfl, (C6_theorem (fun _ => none) "f" ⟨"text", "m", "p"⟩).2 rfl⟩

/-- Claim C7: for a key with a built-in default, the client resolution over
the GET payload returns the caller's user-scope override when one exists,
else the global-scope override when one exists, else the built-in default. -/
theorem C7_theorem (store : PromptStore) (u : SessionUser) (key : String) (d : PromptText)
    (hd : DEFAULT_PROMPTS key = some d) :
    (∀ r, findPrompt store key "user" (some u.id) = some r →
      resolveClient store (some u) key = some (rowText r))
    ∧ (∀ g, findPrompt store key "user" (some u.id) = none →
        findPrompt store key "global" none = some g →
        resolveClient store (some u) key = some (rowText g))
    ∧ (findPrompt store key "user" (some u.id) = none →
        findPrompt store key "global" none = none →
        resolveClient store (some u) key = some d) := by
  simp only [resolveClient, promptGet, hd]
  refine ⟨?_, ?_, ?_⟩
  · intro r hr; simp [loadPromptShown, hr]
  · intro g hu hg; simp [loadPromptShown, hu, hg]
  · intro hu hg; simp [loadPromptShown, hu, hg]

/-- Claim C7, witness: with both a user-scope and a global-scope override
present, the user-scope override wins. -/
theorem C7_witness :
    resolveClient
      (fun k s u2 =>
        if k = "youtube_video" ∧ s = "user" ∧ u2 = some "u1" then
          some ⟨"youtube_video", "user", some "u1", "uSys", "uUsr", 2⟩
        else if k = "youtube_video" ∧ s = "global" ∧ u2 = none then
          some ⟨"youtube_video", "global", none, "gSys", "gUsr", 3⟩
        else none)
      (some ⟨"u1", some "a@b.c"⟩) "youtube_video"
      = some (rowText ⟨"youtube_video", "user", some "u1", "uSys", "uUsr", 2⟩) :=
  (C7_theorem
    (fun k s u2 =>
      if k = "youtube_video" ∧ s = "user" ∧ u2 = some "u1" then
        some ⟨"youtube_video", "user", some "u1", "uSys", "uUsr", 2⟩
      else if k = "youtube_video" ∧ s = "global" ∧ u2 = none then
        some ⟨"youtube_video", "global", none, "gSys", "gUsr", 3⟩
      else none)
    ⟨"u1", some "a@b.c"⟩ "youtube_video" _ rfl).1
    ⟨"youtube_video", "user", some "u1", "uSys", "uUsr", 2⟩ (by decide)

/-- Claim C8: the ingest-refresh gate returns 403 exactly when `CRON_SECRET`
is set to a non-empty value and the `x-cron-secret` header differs from it;
with the secret unset or empty every request proceeds. -/
theorem C8_theorem (secretEnv headerVal : Option String) :
    cronGate secretEnv headerVal = .forbidden ↔
      ∃ s, secretEnv = some s ∧ s ≠ "" ∧ headerVal ≠ some s := by
  cases secretEnv with
  | none => simp [cronGate]
  | some s =>
    simp only [cronGate]
    by_cases hs : s = ""
    · simp [hs]
    · by_cases hh : headerVal = some s
      · simp [hs, hh]
      · simp [hs, hh]

/-- Claim C8, witness: a wrong header against a non-empty secret is
forbidden. -/
theorem C8_witness : cronGate (some "s3cret") (some "wrong") = .forbidden :=
  (C8_theorem (some "s3cret") (some "wrong")).mpr ⟨"s3cret", rfl, by decide, by decide⟩

/-- Claim C9: `isAdminEmail` is true exactly when the email is present,
non-empty, and its lowercase form matches a trimmed, lowercased, non-empty
comma-separated entry of `ADMIN_EMAILS`; an unset or empty `ADMIN_EMAILS`
admits no one; and a global-scope prompt save by a non-admin (with the
handler's earlier guards passed) is rejected with 403 and writes nothing. -/
theorem C9_theorem :
    (∀ (email adminEnv : Option String),
      isAdminEmail email adminEnv = true ↔
        ∃ e, email = some e ∧ e ≠ "" ∧
          ∃ raw ∈ splitComma (adminEnv.getD ""),
            lowerStr (jsTrim raw) ≠ "" ∧ lowerStr (jsTrim raw) = lowerStr e)
    ∧ (∀ email, isAdminEmail email none = false)
    ∧ (∀ email, isAdminEmail email (some "") = false)
    ∧ (∀ (adminEnv : Option String) (store : PromptStore) (u : SessionUser)
        (key : String) (d : PromptText) (ps pu pscope : Option String),
        DEFAULT_PROMPTS key = some d →
        jsTrim (ps.getD "") ≠ "" → jsTrim (pu.getD "") ≠ "" →
        pscope ≠ some "user" →
        isAdminEmail u.email adminEnv = false →
        promptPost adminEnv store (some u) key ps pu pscope = (.forbidden, store)) := by
  refine ⟨?_, ?_, ?_, ?_⟩
  · intro email adminEnv
    cases email with
    | none => simp [isAdminEmail]
    | some e =>
      by_cases he : e = ""
      · simp [isAdminEmail, he]
      · simp only [isAdminEmail, if_neg he]
        constructor
        · intro h
          rw [List.contains_iff_exists_mem_beq] at h
          obtain ⟨a, ha, hbeq⟩ := h
          have hae : lowerStr e = a := by simpa using hbeq
          simp only [adminList] at ha
          rw [List.mem_filter] at ha
          obtain ⟨hmap, hne⟩ := ha
          rw [List.mem_map] at hmap
          obtain ⟨raw, hraw, hfr⟩ := hmap
          refine ⟨e, rfl, he, raw, hraw, ?_, ?_⟩
          · rw [hfr]
            simpa using hne
          · rw [hfr, hae]
        · rintro ⟨e', he', hne, raw, hraw, hne2, heq⟩
          injection he' with he''
          subst he''
          rw [List.contains_iff_exists_mem_beq]
          refine ⟨lowerStr (jsTrim raw), ?_, by simp [heq]⟩
          simp only [adminList]
          rw [List.mem_filter]
          refine ⟨List.mem_map.mpr ⟨raw, hraw, rfl⟩, by simpa using hne2⟩
  · intro email
    cases email with
    | none => rfl
    | some e =>
      simp only [isAdminEmail]
      split
      · rfl
      · rfl
  · intro email
    cases email with
    | none => rfl
    | some e =>
      simp only [isAdminEmail]
      split
      · rfl
      · rfl
  · intro adminEnv store u key d ps pu pscope hd hps hpu hpsc hadmin
    simp only [promptPost, hd]
    rw [if_neg (not_or.mpr ⟨hps, hpu⟩)]
    rw [if_neg hpsc]
    rw [if_pos ⟨rfl, hadmin⟩]

/-- Claim C9, witness: a case-insensitive match against a padded admin list
is admitted, an unset list admits no one, and a non-admin's global-scope save
is rejected with 403 leaving the table unchanged. -/
theorem C9_witness :
    isAdminEmail (some "Admin@Example.com") (some " admin@example.com , ops@example.com") = true
    ∧ isAdminEmail (some "someone@example.com") none = false
    ∧ promptPost (some "x@y.z") emptyPromptStore (some ⟨"u1", some "a@b.c"⟩) "youtube_video"
        (some "sys") (some "usr") none = (.forbidden, emptyPromptStore) := by
  refine ⟨?_, C9_theorem.2.1 (some "someone@example.com"), ?_⟩
  · exact (C9_theorem.1 (some "Admin@Example.com")
      (some " admin@example.com , ops@example.com")).mpr
      ⟨"Admin@Example.com", rfl, by decide, " admin@example.com ", by decide, by decide, by decide⟩
  · exact C9_theorem.2.2.2 (some "x@y.z") emptyPromptStore ⟨"u1", some "a@b.c"⟩ "youtube_video"
      _ (some "sys") (some "usr") none rfl (by decide) (by decide) (by decide) (by decide)

/-- Claim C10: for an authenticated save of a known key whose system or user
text is empty or whitespace-only after trimming, the POST handler answers 400
`system and user required` and leaves the prompt table unchanged — no row is
created and no version is incremented. -/
theorem C10_theorem (adminEnv : Option String) (store : PromptStore) (u : SessionUser)
    (key : String) (ps pu pscope : Option String) (d : PromptText)
    (hd : DEFAULT_PROMPTS key = some d)
    (hblank : jsTrim (ps.getD "") = "" ∨ jsTrim (pu.getD "") = "") :
    promptPost adminEnv store (some u) key ps pu pscope = (.missingFields, store) := by
  simp only [promptPost, hd]
  rw [if_pos hblank]

/-- Claim C10, witness: a whitespace-only system text yields the 400 response
and the untouched table. -/
theorem C10_witness :
    promptPost none emptyPromptStore (some ⟨"u1", some "a@b.c"⟩) "youtube_video"
        (some "   ") (some "usr") none
      = (.missingFields, emptyPromptStore) :=
  C10_theorem none emptyPromptStore ⟨"u1", some "a@b.c"⟩ "youtube_video"
    (some "   ") (some "usr") none _ rfl (Or.inl (by decide))

end RD
